import Mathlib

/-!
Verification development for the SignTracking repository: a club
document-approval tracker built as a React front end over a hosted
Postgres backend, with SQL trigger functions that fan notifications out
to a computed audience. The definitions below are shallow embeddings of
the repository code: row types are transcribed from supabase_schema.sql,
the SQL trigger functions become list computations over those rows, and
the client notification store from src/contexts/NotificationContext.jsx
becomes explicit state passing over an in-memory cache plus an unread
counter. Opaque identifiers (uuids) are modelled as natural numbers,
with 0 standing for the all-zero uuid used as a sentinel by the SQL
functions.
-/

namespace SignTracking

/-- One cached notification row as held by the client store in
NotificationContext.jsx. Only the fields the store operations inspect
(the row id and the read flag) are carried; the remaining columns are
never read by the operations under study. -/
structure ClientNotif where
  id : Nat
  read : Bool
deriving DecidableEq

/-- State of the client notification store: the cached list and the
unread counter, per NotificationContext.jsx. The counter is an integer
because the delete path decrements it without a floor. -/
structure ClientState where
  notifications : List ClientNotif
  unreadCount : Int
deriving DecidableEq

/-- Number of cached rows with read = false. -/
def countUnread (l : List ClientNotif) : Nat :=
  (l.filter (fun n => !n.read)).length

/-- Row transform shared by the client cache update and the stored-row
update of markAsRead: set read to true on the row with the given id. -/
def markRowRead (i : Nat) (n : ClientNotif) : ClientNotif :=
  if n.id = i then { n with read := true } else n

/-- loadNotifications (NotificationContext.jsx lines 129 to 147): replace
the cache with the server response and recompute the counter as the
number of rows with read = false. -/
def loadNotifications (rows : List ClientNotif) : ClientState :=
  ⟨rows, (countUnread rows : Int)⟩

/-- markAsRead (lines 220 to 238): map the cached row with the given id to
read = true, and decrement the counter with a floor at zero, regardless
of whether that row was unread or even present. -/
def markAsRead (i : Nat) (s : ClientState) : ClientState :=
  ⟨s.notifications.map (markRowRead i), max 0 (s.unreadCount - 1)⟩

/-- markAllAsRead (lines 240 to 259): set read = true on every cached row
and reset the counter to zero. -/
def markAllAsRead (s : ClientState) : ClientState :=
  ⟨s.notifications.map (fun n => { n with read := true }), 0⟩

/-- deleteNotification (lines 261 to 278): drop the row with the given id
from the cache; decrement the counter only when the first cached row
with that id exists and is unread (no floor on this path). -/
def deleteNotification (i : Nat) (s : ClientState) : ClientState :=
  ⟨s.notifications.filter (fun n => n.id ≠ i),
   match s.notifications.find? (fun n => n.id = i) with
   | some n => if !n.read then s.unreadCount - 1 else s.unreadCount
   | none => s.unreadCount⟩

/-- clearAllNotifications (lines 280 to 296): empty the cache and reset the
counter to zero. -/
def clearAllNotifications (_s : ClientState) : ClientState :=
  ⟨[], 0⟩

/-- Inbound live insert event (subscribeToNotifications, lines 149 to 190):
prepend the delivered row and increment the counter unconditionally. -/
def liveInsertEvent (n : ClientNotif) (s : ClientState) : ClientState :=
  ⟨n :: s.notifications, s.unreadCount + 1⟩

/-- Effect on the stored rows of the update issued by markAsRead:
UPDATE notifications SET read = true WHERE id = i. -/
def serverMarkRead (i : Nat) (rows : List ClientNotif) : List ClientNotif :=
  rows.map (markRowRead i)

/-- Combined server-and-cache effect of one successful markAsRead call. -/
def markAsReadFull (i : Nat) (st : List ClientNotif × ClientState) :
    List ClientNotif × ClientState :=
  (serverMarkRead i st.1, markAsRead i st.2)

/-- A client state is reconciled when its unread counter equals the number
of cached rows with read = false. -/
def Reconciled (s : ClientState) : Prop :=
  s.unreadCount = (countUnread s.notifications : Int)

instance (s : ClientState) : Decidable (Reconciled s) :=
  inferInstanceAs (Decidable (_ = _))

theorem countUnread_nil : countUnread [] = 0 := rfl

theorem countUnread_cons (n : ClientNotif) (l : List ClientNotif) :
    countUnread (n :: l) = (if n.read then 0 else 1) + countUnread l := by
  cases h : n.read <;> simp [countUnread, List.filter_cons, h] <;> omega

theorem markRowRead_of_ne (i : Nat) (n : ClientNotif) (h : n.id ≠ i) :
    markRowRead i n = n := by
  simp [markRowRead, h]

theorem map_markRowRead_eq_self (i : Nat) (l : List ClientNotif)
    (h : ∀ m ∈ l, m.id ≠ i) : l.map (markRowRead i) = l := by
  induction l with
  | nil => rfl
  | cons x xs ih =>
    simp only [List.map_cons]
    rw [markRowRead_of_ne i x (h x (List.mem_cons_self x xs)),
      ih (fun m hm => h m (List.mem_cons_of_mem x hm))]

theorem countUnread_map_allRead (l : List ClientNotif) :
    countUnread (l.map (fun n => { n with read := true })) = 0 := by
  induction l with
  | nil => rfl
  | cons x xs ih => simpa [countUnread_cons] using ih

/-- With pairwise distinct ids, marking the id of a cached unread row read
decreases the unread count by exactly one. -/
theorem countUnread_map_markRowRead (i : Nat) (l : List ClientNotif)
    (hnd : (l.map ClientNotif.id).Nodup)
    (m : ClientNotif) (hm : m ∈ l) (hid : m.id = i) (hur : m.read = false) :
    countUnread (l.map (markRowRead i)) + 1 = countUnread l := by
  induction l with
  | nil => cases hm
  | cons x xs ih =>
    simp only [List.map_cons, List.nodup_cons] at hnd
    rcases List.mem_cons.mp hm with hx | hx
    · subst hx
      have hxs : ∀ n ∈ xs, n.id ≠ i := by
        intro n hn hni
        apply hnd.1
        rw [hid, ← hni]
        exact List.mem_map_of_mem ClientNotif.id hn
      rw [List.map_cons, map_markRowRead_eq_self i xs hxs]
      simp [markRowRead, hid, countUnread_cons, hur]
      omega
    · have hxi : x.id ≠ i := by
        intro hxi
        apply hnd.1
        rw [hxi, ← hid]
        exact List.mem_map_of_mem ClientNotif.id hx
      rw [List.map_cons, markRowRead_of_ne i x hxi, countUnread_cons,
        countUnread_cons]
      have := ih hnd.2 hx
      omega

theorem filter_id_ne_eq_self (i : Nat) (l : List ClientNotif)
    (h : ∀ m ∈ l, m.id ≠ i) : l.filter (fun n => n.id ≠ i) = l := by
  rw [List.filter_eq_self]
  intro a ha
  simpa using h a ha

/-- With pairwise distinct ids, deleting the id found by find? removes
exactly that row from the unread count. -/
theorem countUnread_filter_find (i : Nat) (l : List ClientNotif)
    (hnd : (l.map ClientNotif.id).Nodup)
    (m : ClientNotif) (hfind : l.find? (fun n => n.id = i) = some m) :
    countUnread (l.filter (fun n => n.id ≠ i)) + (if m.read then 0 else 1)
      = countUnread l := by
  induction l with
  | nil => simp at hfind
  | cons x xs ih =>
    simp only [List.map_cons, List.nodup_cons] at hnd
    by_cases hx : x.id = i
    · have hm : m = x := by
        rw [List.find?_cons_of_pos _ (by simpa using hx)] at hfind
        exact (Option.some_inj.mp hfind).symm
      subst hm
      have hxs : ∀ n ∈ xs, n.id ≠ i := by
        intro n hn hni
        apply hnd.1
        rw [hx, ← hni]
        exact List.mem_map_of_mem ClientNotif.id hn
      rw [List.filter_cons_of_neg (by simpa using hx),
        filter_id_ne_eq_self i xs hxs, countUnread_cons]
      cases m.read <;> simp <;> omega
    · rw [List.find?_cons_of_neg _ (by simpa using hx)] at hfind
      rw [List.filter_cons_of_pos (by simpa using hx), countUnread_cons,
        countUnread_cons]
      have := ih hnd.2 hfind
      omega

theorem one_le_countUnread_of_mem (m : ClientNotif) (l : List ClientNotif)
    (hm : m ∈ l) (hur : m.read = false) : 1 ≤ countUnread l := by
  induction l with
  | nil => cases hm
  | cons x xs ih =>
    rcases List.mem_cons.mp hm with hx | hx
    · subst hx
      simp [countUnread_cons, hur]
    · have := ih hx
      rw [countUnread_cons]
      omega

/-- C2 counterexample: from the reconciled state with one unread row (id 1)
and one read row (id 2), calling markAsRead on the already-read row leaves
the cache unchanged but still decrements the counter, so the counter no
longer equals the number of cached unread rows. -/
theorem c2_unread_counter_drift_counterexample :
    Reconciled ⟨[⟨1, false⟩, ⟨2, true⟩], 1⟩
  ∧ ¬ Reconciled (markAsRead 2 ⟨[⟨1, false⟩, ⟨2, true⟩], 1⟩) := by
  decide

/-- C2 (amended): from a reconciled state with pairwise distinct cached ids,
the counter again equals the number of cached unread rows after an initial
load, mark all read, delete one, delete all, an inbound live insert of an
unread row, and mark one read when the target is cached and unread. The
unrestricted claim fails for markAsRead on an already-read or absent id. -/
theorem c2_unread_counter_reconciliation (s : ClientState)
    (rows : List ClientNotif) (n : ClientNotif) (i : Nat)
    (hrec : Reconciled s) (hnd : (s.notifications.map ClientNotif.id).Nodup) :
    Reconciled (loadNotifications rows)
  ∧ Reconciled (markAllAsRead s)
  ∧ Reconciled (clearAllNotifications s)
  ∧ Reconciled (deleteNotification i s)
  ∧ (n.read = false → Reconciled (liveInsertEvent n s))
  ∧ ((∃ m ∈ s.notifications, m.id = i ∧ m.read = false) →
      Reconciled (markAsRead i s)) := by
  obtain ⟨l, c⟩ := s
  simp only [Reconciled] at hrec
  simp only [ClientState.notifications] at hnd
  refine ⟨rfl, ?_, rfl, ?_, ?_, ?_⟩
  · simp [markAllAsRead, Reconciled, countUnread_map_allRead]
  · simp only [deleteNotification, Reconciled]
    cases hfind : l.find? (fun m => m.id = i) with
    | none =>
      have hall : ∀ m ∈ l, m.id ≠ i := by
        intro m hm
        simpa using List.find?_eq_none.mp hfind m hm
      rw [filter_id_ne_eq_self i l hall]
      exact hrec
    | some m =>
      have h2 := countUnread_filter_find i l hnd m hfind
      cases hr : m.read <;> simp [hr] at h2 ⊢ <;> omega
  · intro hn
    simp [liveInsertEvent, Reconciled, countUnread_cons, hn]
    omega
  · rintro ⟨m, hm, hid, hur⟩
    have h2 := countUnread_map_markRowRead i l hnd m hm hid hur
    simp only [markAsRead, Reconciled]
    omega

/-- C2 witness: the amended theorem applied to a concrete reconciled state. -/
theorem c2_unread_counter_reconciliation_witness :
    Reconciled (loadNotifications [⟨2, true⟩])
  ∧ Reconciled (markAllAsRead ⟨[⟨1, false⟩], 1⟩)
  ∧ Reconciled (clearAllNotifications ⟨[⟨1, false⟩], 1⟩)
  ∧ Reconciled (deleteNotification 1 ⟨[⟨1, false⟩], 1⟩)
  ∧ ((⟨3, false⟩ : ClientNotif).read = false →
      Reconciled (liveInsertEvent ⟨3, false⟩ ⟨[⟨1, false⟩], 1⟩))
  ∧ ((∃ m ∈ (ClientState.mk [⟨1, false⟩] 1).notifications,
        m.id = 1 ∧ m.read = false) →
      Reconciled (markAsRead 1 ⟨[⟨1, false⟩], 1⟩)) :=
  c2_unread_counter_reconciliation ⟨[⟨1, false⟩], 1⟩ [⟨2, true⟩] ⟨3, false⟩ 1
    (by decide) (by decide)

/-- C5 counterexample: with two unread rows cached and the counter
reconciled at 2, marking row 1 read twice leaves a different combined
store-and-cache state (counter 0) than marking it once (counter 1). -/
theorem c5_mark_read_not_idempotent_counterexample :
    markAsReadFull 1 (markAsReadFull 1
        ([⟨1, false⟩, ⟨2, false⟩], ⟨[⟨1, false⟩, ⟨2, false⟩], 2⟩))
  ≠ markAsReadFull 1
      ([⟨1, false⟩, ⟨2, false⟩], ⟨[⟨1, false⟩, ⟨2, false⟩], 2⟩) := by
  decide

/-- C5 (amended): marking a notification read is idempotent on the stored
rows and on the cached rows, and from a reconciled state no mark-read call
increases the unread counter; but it is not idempotent on the combined
state, because every call decrements the counter again (floored at zero),
so marking an already-read notification is not a counter no-op. -/
theorem c5_mark_read_idempotent_amended :
    (∀ (i : Nat) (rows : List ClientNotif),
      serverMarkRead i (serverMarkRead i rows) = serverMarkRead i rows)
  ∧ (∀ (i : Nat) (s : ClientState),
      (markAsRead i (markAsRead i s)).notifications
        = (markAsRead i s).notifications)
  ∧ (∀ (i : Nat) (s : ClientState), Reconciled s →
      (markAsRead i s).unreadCount ≤ s.unreadCount
      ∧ (markAllAsRead s).unreadCount ≤ s.unreadCount) := by
  have hrow : ∀ (i : Nat) (n : ClientNotif),
      markRowRead i (markRowRead i n) = markRowRead i n := by
    intro i n
    by_cases h : n.id = i <;> simp [markRowRead, h]
  refine ⟨?_, ?_, ?_⟩
  · intro i rows
    simp [serverMarkRead, List.map_map, Function.comp_def, hrow]
  · intro i s
    simp [markAsRead, List.map_map, Function.comp_def, hrow]
  · intro i s hrec
    obtain ⟨l, c⟩ := s
    simp only [Reconciled, ClientState.notifications, ClientState.unreadCount]
      at hrec
    constructor
    · simp only [markAsRead, ClientState.unreadCount]
      omega
    · simp only [markAllAsRead, ClientState.unreadCount]
      omega

/-- C5 witness: the amended theorem applied at a concrete id and state. -/
theorem c5_mark_read_idempotent_amended_witness :
    serverMarkRead 1 (serverMarkRead 1 [⟨1, false⟩]) = serverMarkRead 1 [⟨1, false⟩]
  ∧ (markAsRead 1 (markAsRead 1 ⟨[⟨1, false⟩], 1⟩)).notifications
      = (markAsRead 1 ⟨[⟨1, false⟩], 1⟩).notifications
  ∧ (markAsRead 1 ⟨[⟨1, false⟩], 1⟩).unreadCount
      ≤ (ClientState.mk [⟨1, false⟩] 1).unreadCount :=
  ⟨c5_mark_read_idempotent_amended.1 1 [⟨1, false⟩],
   c5_mark_read_idempotent_amended.2.1 1 ⟨[⟨1, false⟩], 1⟩,
   (c5_mark_read_idempotent_amended.2.2 1 ⟨[⟨1, false⟩], 1⟩ (by decide)).1⟩

/-- C10: starting from any reconciled client state, each store operation
(mark one read, mark all read, delete one, delete all, inbound live
insert) leaves the unread counter non-negative. -/
theorem c10_unread_counter_nonnegative (s : ClientState) (n : ClientNotif)
    (i : Nat) (hrec : Reconciled s) :
    0 ≤ (markAsRead i s).unreadCount
  ∧ 0 ≤ (markAllAsRead s).unreadCount
  ∧ 0 ≤ (deleteNotification i s).unreadCount
  ∧ 0 ≤ (clearAllNotifications s).unreadCount
  ∧ 0 ≤ (liveInsertEvent n s).unreadCount := by
  obtain ⟨l, c⟩ := s
  simp only [Reconciled, ClientState.notifications, ClientState.unreadCount]
    at hrec
  have h0 : 0 ≤ c := by omega
  refine ⟨?_, ?_, ?_, ?_, ?_⟩
  · simp only [markAsRead, ClientState.unreadCount]
    omega
  · simp [markAllAsRead]
  · simp only [deleteNotification, ClientState.unreadCount]
    cases hfind : l.find? (fun m => m.id = i) with
    | none => exact h0
    | some m =>
      cases hr : m.read with
      | true => simpa [hr] using h0
      | false =>
        have hmem := List.mem_of_find?_eq_some hfind
        have hge := one_le_countUnread_of_mem m l hmem hr
        simp only [hr]
        omega
  · simp [clearAllNotifications]
  · simp only [liveInsertEvent, ClientState.unreadCount]
    omega

/-- C10 witness: the theorem applied at a concrete reconciled state. -/
theorem c10_unread_counter_nonnegative_witness :
    0 ≤ (markAsRead 7 ⟨[⟨7, false⟩, ⟨8, true⟩], 1⟩).unreadCount
  ∧ 0 ≤ (markAllAsRead ⟨[⟨7, false⟩, ⟨8, true⟩], 1⟩).unreadCount
  ∧ 0 ≤ (deleteNotification 7 ⟨[⟨7, false⟩, ⟨8, true⟩], 1⟩).unreadCount
  ∧ 0 ≤ (clearAllNotifications ⟨[⟨7, false⟩, ⟨8, true⟩], 1⟩).unreadCount
  ∧ 0 ≤ (liveInsertEvent ⟨9, false⟩ ⟨[⟨7, false⟩, ⟨8, true⟩], 1⟩).unreadCount :=
  c10_unread_counter_nonnegative ⟨[⟨7, false⟩, ⟨8, true⟩], 1⟩ ⟨9, false⟩ 7
    (by decide)

/-- Role of a users row; users.role is constrained to admin or member. -/
inductive Role where
  | admin
  | member
deriving DecidableEq

/-- A users table row; only the columns the notification functions read. -/
structure UserRow where
  id : Nat
  full_name : String
  role : Role
deriving DecidableEq

/-- A documents table row; only the columns the functions under study read.
The admin_approved column is BOOLEAN DEFAULT false and nullable, hence an
optional boolean; created_by is a nullable reference. -/
structure DocumentRow where
  id : Nat
  name : String
  created_by : Option Nat
  requires_admin_approval : Bool
  admin_approved : Option Bool
  status : String
deriving DecidableEq

/-- A notifications table row as inserted by the SQL functions. The
generated id, the timestamps and the JSONB payload are omitted; the read
column takes its schema default false on every trigger insert. -/
structure NotificationRow where
  user_id : Nat
  document_id : Option Nat
  title : String
  message : String
  type : String
  read : Bool
deriving DecidableEq

/-- create_notification_for_users (supabase_schema.sql lines 300 to 320):
insert one notifications row per users row whose id differs from
COALESCE(p_exclude_user_id, the all-zero uuid), modelled with 0 for the
all-zero uuid. -/
def create_notification_for_users (users : List UserRow)
    (p_title p_message p_type : String) (p_document_id : Option Nat)
    (p_exclude_user_id : Option Nat) : List NotificationRow :=
  (users.filter (fun u => u.id ≠ p_exclude_user_id.getD 0)).map
    (fun u => ⟨u.id, p_document_id, p_title, p_message, p_type, false⟩)

/-- notify_document_created (supabase_schema.sql lines 387 to 406): look up
the full name of the creator of the freshly inserted document row, then
notify all users except the creator. The name lookup yields the empty
string when the creator row is absent; the theorems below assume the
creator exists, in which case the lookup succeeds. -/
def notify_document_created (users : List UserRow) (new : DocumentRow) :
    List NotificationRow :=
  let creator_name :=
    (((users.find? (fun u => some u.id = new.created_by)).map
      (fun u => u.full_name)).getD "")
  create_notification_for_users users
    "New Document Created"
    (creator_name ++ " created a new document: " ++ new.name)
    "document_created" (some new.id) new.created_by

/-- SQL three-valued inequality on a nullable boolean, as evaluated by the
guard IF OLD.admin_approved != NEW.admin_approved: when either side is
NULL the comparison is not true and the branch is not taken. -/
def sqlNeqBool : Option Bool → Option Bool → Bool
  | some a, some b => a != b
  | _, _ => false

/-- Guard of notify_status_updated (supabase_schema.sql lines 433 to 468):
the trigger body runs only when the old and new admin_approved values
compare unequal under SQL three-valued logic. -/
def notify_status_updated_fires (oldApproved newApproved : Option Bool) :
    Bool :=
  sqlNeqBool oldApproved newApproved

/-- Minimal shape of the scalar expressions appearing in the WHERE clause
of the audience insert in create_notification_for_document_users. -/
inductive SqlScalarExpr where
  | paramRef (name : String)
  | uuidLiteral (v : Nat)
  | unnestCall (arrayVar : String)
  | coalesceCall (a b : SqlScalarExpr)
  | notEqual (a b : SqlScalarExpr)
  | isNotNull (a : SqlScalarExpr)
  | logicalAnd (a b : SqlScalarExpr)
deriving DecidableEq

/-- Whether an expression contains a call of the set-returning function
unnest. -/
def SqlScalarExpr.containsSetReturning : SqlScalarExpr → Bool
  | .paramRef _ => false
  | .uuidLiteral _ => false
  | .unnestCall _ => true
  | .coalesceCall a b => a.containsSetReturning || b.containsSetReturning
  | .notEqual a b => a.containsSetReturning || b.containsSetReturning
  | .isNotNull a => a.containsSetReturning
  | .logicalAnd a b => a.containsSetReturning || b.containsSetReturning

/-- The WHERE clause of INSERT INTO notifications ... SELECT DISTINCT
unnest(all_users), ... inside create_notification_for_document_users,
transcribed from supabase_schema.sql lines 377 to 378. -/
def audienceInsertWhereClause : SqlScalarExpr :=
  .logicalAnd
    (.notEqual (.unnestCall "all_users")
      (.coalesceCall (.paramRef "p_exclude_user_id") (.uuidLiteral 0)))
    (.isNotNull (.unnestCall "all_users"))

/-- PostgreSQL placement rule for set-returning functions: they are
permitted in the select list and in FROM, and a WHERE clause that contains
one is rejected with error 0A000, so a statement whose WHERE clause
contains unnest raises instead of inserting rows. -/
def postgresAcceptsWhereClause (e : SqlScalarExpr) : Bool :=
  !e.containsSetReturning

/-- Column names of document_signatories, transcribed from the CREATE TABLE
statement at supabase_schema.sql lines 35 to 48. -/
def document_signatories_columns : List String :=
  ["id", "document_id", "name", "position", "email", "phone",
   "is_signed", "signed_at", "notes", "order_index",
   "created_at", "updated_at"]

/-- Row fields that notify_signature_updated (supabase_schema.sql lines 471
to 510) reads through the OLD and NEW trigger records: the guard reads
signed_at and status, the body reads document_id, name, status and
position. -/
def notify_signature_updated_record_fields : List String :=
  ["signed_at", "status", "document_id", "name", "position"]

/-- Projecting ids out of a filter on ids commutes with mapping to ids. -/
theorem map_id_filter (l : List UserRow) (i : Nat) :
    (l.filter (fun u => u.id ≠ i)).map UserRow.id
      = (l.map UserRow.id).filter (fun x => x ≠ i) := by
  induction l with
  | nil => rfl
  | cons x xs ih =>
    by_cases hx : x.id = i
    · rw [List.filter_cons_of_neg (by simpa using hx), List.map_cons,
        List.filter_cons_of_neg (by simpa using hx), ih]
    · rw [List.filter_cons_of_pos (by simpa using hx), List.map_cons,
        List.map_cons, List.filter_cons_of_pos (by simpa using hx), ih]

/-- Removing one present element from a duplicate-free list shortens it by
exactly one. -/
theorem length_filter_ne_of_nodup (l : List Nat) (hnd : l.Nodup) (i : Nat)
    (hi : i ∈ l) : (l.filter (fun x => x ≠ i)).length + 1 = l.length := by
  induction l with
  | nil => cases hi
  | cons a as ih =>
    simp only [List.nodup_cons] at hnd
    by_cases ha : a = i
    · subst ha
      rw [List.filter_cons_of_neg (by simp)]
      rw [List.filter_eq_self.mpr ?hall]
      case hall =>
        intro x hx
        simp only [decide_eq_true_eq]
        intro hxa
        exact hnd.1 (hxa ▸ hx)
      simp
    · have hmem : i ∈ as := by
        rcases List.mem_cons.mp hi with h | h
        · exact absurd h.symm ha
        · exact h
      rw [List.filter_cons_of_pos (by simpa using ha)]
      have := ih hnd.2 hmem
      simp only [List.length_cons]
      omega

/-- In a duplicate-free list, an element distinct from the removed one is
counted exactly once after the removal. -/
theorem countP_filter_ids (l : List Nat) (hnd : l.Nodup) (j i : Nat)
    (hj : j ∈ l) (hij : j ≠ i) :
    (l.filter (fun x => x ≠ i)).countP (fun x => x = j) = 1 := by
  induction l with
  | nil => cases hj
  | cons a as ih =>
    simp only [List.nodup_cons] at hnd
    by_cases haj : a = j
    · subst haj
      rw [List.filter_cons_of_pos (by simpa using hij)]
      rw [List.countP_cons_of_pos _ _ (by simp)]
      have hzero : (as.filter (fun x => x ≠ i)).countP (fun x => x = a)
          = 0 := by
        rw [List.countP_eq_zero]
        intro x hx
        have hxas := (List.mem_filter.mp hx).1
        simp only [decide_eq_true_eq]
        intro hxa
        exact hnd.1 (hxa ▸ hxas)
      rw [hzero]
    · have hjas : j ∈ as := by
        rcases List.mem_cons.mp hj with h | h
        · exact absurd h.symm haj
        · exact h
      by_cases hai : a = i
      · rw [List.filter_cons_of_neg (by simpa using hai)]
        exact ih hnd.2 hjas
      · rw [List.filter_cons_of_pos (by simpa using hai),
          List.countP_cons_of_neg _ _ (by simpa using haj)]
        exact ih hnd.2 hjas

/-- C3: inserting a document created by user U, with U among the existing
users and user ids pairwise distinct, produces exactly one notification
row per other existing user, |users| - 1 rows in total, each of type
document_created and referencing the new document, and no row for U. -/
theorem c3_document_created_fanout (users : List UserRow) (U : UserRow)
    (d : DocumentRow) (hmem : U ∈ users)
    (hnd : (users.map UserRow.id).Nodup)
    (hcb : d.created_by = some U.id) :
    (notify_document_created users d).length + 1 = users.length
  ∧ (∀ r ∈ notify_document_created users d,
      r.type = "document_created" ∧ r.document_id = some d.id)
  ∧ (∀ r ∈ notify_document_created users d, r.user_id ≠ U.id)
  ∧ (∀ u ∈ users, u.id ≠ U.id →
      (notify_document_created users d).countP
        (fun r => r.user_id = u.id) = 1) := by
  have hids : (notify_document_created users d).map NotificationRow.user_id
      = (users.map UserRow.id).filter (fun x => x ≠ U.id) := by
    simp only [notify_document_created, create_notification_for_users, hcb,
      Option.getD_some, List.map_map, Function.comp_def]
    exact map_id_filter users U.id
  refine ⟨?_, ?_, ?_, ?_⟩
  · have h1 : (notify_document_created users d).length
        = ((users.map UserRow.id).filter (fun x => x ≠ U.id)).length := by
      rw [← hids, List.length_map]
    rw [h1]
    have h2 := length_filter_ne_of_nodup (users.map UserRow.id) hnd U.id
      (List.mem_map_of_mem UserRow.id hmem)
    rwa [List.length_map] at h2
  · intro r hr
    simp only [notify_document_created, create_notification_for_users,
      List.mem_map] at hr
    rcases hr with ⟨u, _, hu⟩
    rw [← hu]
    exact ⟨rfl, rfl⟩
  · intro r hr
    simp only [notify_document_created, create_notification_for_users, hcb,
      Option.getD_some, List.mem_map, List.mem_filter] at hr
    rcases hr with ⟨u, ⟨_, hu⟩, hru⟩
    rw [← hru]
    simpa using hu
  · intro u hu huU
    have hcount := congrArg (List.countP (fun x => x = u.id)) hids
    rw [List.countP_map] at hcount
    have hcomp : (notify_document_created users d).countP
        (fun r => r.user_id = u.id)
        = ((users.map UserRow.id).filter (fun x => x ≠ U.id)).countP
            (fun x => x = u.id) := by
      simpa [Function.comp_def] using hcount
    rw [hcomp]
    exact countP_filter_ids (users.map UserRow.id) hnd u.id U.id
      (List.mem_map_of_mem UserRow.id hu) huU
/-- C3 witness: three users with distinct ids, a document created by the
second; the fan-out yields two rows, one per other user, none for the
creator. -/
theorem c3_document_created_fanout_witness :
    (notify_document_created
        [⟨1, "a", Role.admin⟩, ⟨2, "b", Role.member⟩, ⟨3, "c", Role.member⟩]
        ⟨10, "Doc", some 2, false, some false, "pending"⟩).length + 1 = 3
  ∧ (∀ r ∈ notify_document_created
        [⟨1, "a", Role.admin⟩, ⟨2, "b", Role.member⟩, ⟨3, "c", Role.member⟩]
        ⟨10, "Doc", some 2, false, some false, "pending"⟩,
      r.type = "document_created" ∧ r.document_id = some 10)
  ∧ (∀ r ∈ notify_document_created
        [⟨1, "a", Role.admin⟩, ⟨2, "b", Role.member⟩, ⟨3, "c", Role.member⟩]
        ⟨10, "Doc", some 2, false, some false, "pending"⟩,
      r.user_id ≠ (UserRow.mk 2 "b" Role.member).id)
  ∧ (∀ u ∈ [⟨1, "a", Role.admin⟩, ⟨2, "b", Role.member⟩,
        (⟨3, "c", Role.member⟩ : UserRow)], u.id ≠ 2 →
      (notify_document_created
        [⟨1, "a", Role.admin⟩, ⟨2, "b", Role.member⟩, ⟨3, "c", Role.member⟩]
        ⟨10, "Doc", some 2, false, some false, "pending"⟩).countP
          (fun r => r.user_id = u.id) = 1) :=
  c3_document_created_fanout
    [⟨1, "a", Role.admin⟩, ⟨2, "b", Role.member⟩, ⟨3, "c", Role.member⟩]
    ⟨2, "b", Role.member⟩ ⟨10, "Doc", some 2, false, some false, "pending"⟩
    (by decide) (by decide) (by decide)

/-- C1: the status-update trigger guard fires when the stored approval
value changes from its default false to true (and stays silent when NULL
is involved or when the written value equals the held one), but the
audience insert it then runs has the set-returning unnest call inside its
WHERE clause, which PostgreSQL rejects, so the statement raises instead of
inserting the audience rows. -/
theorem c1_status_update_fanout :
    notify_status_updated_fires (some false) (some true) = true
  ∧ notify_status_updated_fires none (some true) = false
  ∧ (∀ v : Option Bool, notify_status_updated_fires v v = false)
  ∧ postgresAcceptsWhereClause audienceInsertWhereClause = false := by
  refine ⟨rfl, rfl, ?_, rfl⟩
  intro v
  cases v with
  | none => rfl
  | some b => simp [notify_status_updated_fires, sqlNeqBool]

/-- C4: the guard of the signature-update trigger reads a status field of
the OLD and NEW records, but the document_signatories table has no status
column (its signing flag is is_signed), so the field reference cannot be
resolved against the table row. -/
theorem c4_signature_trigger_missing_column :
    "status" ∈ notify_signature_updated_record_fields
  ∧ "status" ∉ document_signatories_columns
  ∧ "is_signed" ∈ document_signatories_columns
  ∧ "is_signed" ∉ notify_signature_updated_record_fields := by
  decide

/-- A document_signatories table row; only the columns the client
signature-update and progress paths touch. -/
structure SignatoryRow where
  id : Nat
  is_signed : Bool
  signed_at : Option Nat
  notes : String
deriving DecidableEq

/-- updateSignatureStatus from the document-details page
(src/unnamed/part_000 lines 120 to 176), success path of the awaited
database calls: the code updates the target signatory, recomputes the
signatory list locally, and writes status completed on the document
exactly when every signatory of the recomputed list is signed and the
admin approval value is not false (the JS test admin_approved !== false,
which null and true both pass). Timestamps are modelled as Nat. -/
def updateSignatureStatus (doc : DocumentRow) (signatories : List SignatoryRow)
    (signatoryId : Nat) (isSigned : Bool) (now : Nat) (notes : String) :
    DocumentRow × List SignatoryRow :=
  let newSignatories := signatories.map (fun s =>
    if s.id = signatoryId then
      { s with is_signed := isSigned,
               signed_at := if isSigned then some now else none,
               notes := notes }
    else s)
  let updatedSignatories := signatories.map (fun s =>
    if s.id = signatoryId then { s with is_signed := isSigned } else s)
  let allSigned := updatedSignatories.all (fun s => s.is_signed)
  let doc2 :=
    if allSigned ∧ doc.admin_approved ≠ some false then
      { doc with status := "completed" }
    else doc
  (doc2, newSignatories)

/-- The two local recomputations in updateSignatureStatus (one also setting
signed_at and notes, one only is_signed) agree on the signed flags. -/
theorem updateSignatureStatus_all_signed (signatories : List SignatoryRow)
    (signatoryId : Nat) (isSigned : Bool) (now : Nat) (notes : String) :
    (signatories.map (fun s =>
      if s.id = signatoryId then
        { s with is_signed := isSigned,
                 signed_at := if isSigned then some now else none,
                 notes := notes }
      else s)).all (fun s => s.is_signed)
  = (signatories.map (fun s =>
      if s.id = signatoryId then { s with is_signed := isSigned }
      else s)).all (fun s => s.is_signed) := by
  induction signatories with
  | nil => rfl
  | cons x xs ih =>
    by_cases hx : x.id = signatoryId <;>
      simp [List.map_cons, List.all_cons, hx, ih]

/-- C7: for a document with a non-empty signatory list, the signature
update sets the document status to completed exactly when afterwards every
signatory is signed and the admin approval value is not false; otherwise
the status field is left unchanged. -/
theorem c7_signature_update_completes (doc : DocumentRow)
    (signatories : List SignatoryRow) (signatoryId : Nat) (isSigned : Bool)
    (now : Nat) (notes : String) (_hne : signatories ≠ []) :
    (((updateSignatureStatus doc signatories signatoryId isSigned now
          notes).2.all (fun s => s.is_signed)) = true
        ∧ doc.admin_approved ≠ some false →
      (updateSignatureStatus doc signatories signatoryId isSigned now
          notes).1.status = "completed")
  ∧ (¬ (((updateSignatureStatus doc signatories signatoryId isSigned now
          notes).2.all (fun s => s.is_signed)) = true
        ∧ doc.admin_approved ≠ some false) →
      (updateSignatureStatus doc signatories signatoryId isSigned now
          notes).1.status = doc.status) := by
  simp only [updateSignatureStatus,
    updateSignatureStatus_all_signed signatories signatoryId isSigned now
      notes]
  constructor
  · rintro ⟨hall, happ⟩
    rw [if_pos ⟨hall, happ⟩]
  · intro hnot
    rw [if_neg hnot]

/-- C7 witness: a pending document with approval granted and two
signatories, the first already signed; marking the second signed completes
the document, per the theorem applied at these inputs. -/
theorem c7_signature_update_completes_witness :
    (((updateSignatureStatus ⟨10, "Budget Request", some 1, true, some true,
          "in_progress"⟩ [⟨1, true, some 5, ""⟩, ⟨2, false, none, ""⟩] 2 true
          9 "ok").2.all (fun s => s.is_signed)) = true
        ∧ (DocumentRow.mk 10 "Budget Request" (some 1) true (some true)
            "in_progress").admin_approved ≠ some false →
      (updateSignatureStatus ⟨10, "Budget Request", some 1, true, some true,
          "in_progress"⟩ [⟨1, true, some 5, ""⟩, ⟨2, false, none, ""⟩] 2 true
          9 "ok").1.status = "completed")
  ∧ (¬ (((updateSignatureStatus ⟨10, "Budget Request", some 1, true,
          some true, "in_progress"⟩ [⟨1, true, some 5, ""⟩,
          ⟨2, false, none, ""⟩] 2 true 9 "ok").2.all
            (fun s => s.is_signed)) = true
        ∧ (DocumentRow.mk 10 "Budget Request" (some 1) true (some true)
            "in_progress").admin_approved ≠ some false) →
      (updateSignatureStatus ⟨10, "Budget Request", some 1, true, some true,
          "in_progress"⟩ [⟨1, true, some 5, ""⟩, ⟨2, false, none, ""⟩] 2 true
          9 "ok").1.status = (DocumentRow.mk 10 "Budget Request" (some 1)
            true (some true) "in_progress").status) :=
  c7_signature_update_completes
    ⟨10, "Budget Request", some 1, true, some true, "in_progress"⟩
    [⟨1, true, some 5, ""⟩, ⟨2, false, none, ""⟩] 2 true 9 "ok"
    (by decide)

/-- getSignatureProgress from the document-details page
(src/unnamed/part_000 lines 327 to 331): 0 for an empty signatory list,
otherwise the JS Math.round of (signed / total) * 100, with Math.round
modelled as round, which rounds half up exactly as Math.round does on the
non-negative ratios arising here. -/
def getSignatureProgress (signatories : List SignatoryRow) : ℤ :=
  if signatories.length = 0 then 0
  else
    round ((((signatories.filter (fun s => s.is_signed)).length : ℚ)
      / (signatories.length : ℚ)) * 100)

/-- Result record of the dashboard getSignatureProgress
(src/unnamed/part_001 lines 93 to 101). -/
structure SignatureProgress where
  signed : Nat
  total : Nat
  percentage : ℤ
deriving DecidableEq

/-- getSignatureProgress from the dashboard (src/unnamed/part_001 lines 93
to 101): zero record for an empty list, otherwise signed and total counts
with the rounded percentage, guarded again by total > 0. -/
def getSignatureProgressDashboard (signatories : List SignatoryRow) :
    SignatureProgress :=
  if signatories.length = 0 then ⟨0, 0, 0⟩
  else
    let signed := (signatories.filter (fun s => s.is_signed)).length
    let total := signatories.length
    ⟨signed, total,
     if 0 < total then round (((signed : ℚ) / (total : ℚ)) * 100) else 0⟩

/-- C9: for a non-empty signatory list both displayed progress percentages
equal round(100 * signed / total), and both are 0 on the empty list. -/
theorem c9_signature_progress (signatories : List SignatoryRow)
    (hne : signatories ≠ []) :
    getSignatureProgress signatories
      = round ((100 * ((signatories.filter (fun s => s.is_signed)).length : ℚ))
          / (signatories.length : ℚ))
  ∧ (getSignatureProgressDashboard signatories).percentage
      = round ((100 * ((signatories.filter (fun s => s.is_signed)).length : ℚ))
          / (signatories.length : ℚ))
  ∧ getSignatureProgress [] = 0
  ∧ (getSignatureProgressDashboard []).percentage = 0 := by
  have hlen : signatories.length ≠ 0 :=
    Nat.pos_iff_ne_zero.mp (List.length_pos.mpr hne)
  have harg : (((signatories.filter (fun s => s.is_signed)).length : ℚ)
        / (signatories.length : ℚ)) * 100
      = (100 * ((signatories.filter (fun s => s.is_signed)).length : ℚ))
          / (signatories.length : ℚ) := by
    ring
  refine ⟨?_, ?_, rfl, rfl⟩
  · rw [getSignatureProgress, if_neg hlen, harg]
  · rw [getSignatureProgressDashboard, if_neg hlen]
    simp only [SignatureProgress.percentage]
    rw [if_pos (Nat.pos_of_ne_zero hlen), harg]

/-- C9 witness: one signed signatory out of two gives 50 percent, per the
theorem applied at that list. -/
theorem c9_signature_progress_witness :
    getSignatureProgress [⟨1, true, some 3, ""⟩, ⟨2, false, none, ""⟩]
      = round ((100 * (([⟨1, true, some 3, ""⟩,
          (⟨2, false, none, ""⟩ : SignatoryRow)].filter
            (fun s => s.is_signed)).length : ℚ))
          / (([⟨1, true, some 3, ""⟩,
          (⟨2, false, none, ""⟩ : SignatoryRow)].length : ℚ)))
  ∧ (getSignatureProgressDashboard
        [⟨1, true, some 3, ""⟩, ⟨2, false, none, ""⟩]).percentage
      = round ((100 * (([⟨1, true, some 3, ""⟩,
          (⟨2, false, none, ""⟩ : SignatoryRow)].filter
            (fun s => s.is_signed)).length : ℚ))
          / (([⟨1, true, some 3, ""⟩,
          (⟨2, false, none, ""⟩ : SignatoryRow)].length : ℚ)))
  ∧ getSignatureProgress [] = 0
  ∧ (getSignatureProgressDashboard []).percentage = 0 :=
  c9_signature_progress [⟨1, true, some 3, ""⟩, ⟨2, false, none, ""⟩]
    (by decide)

/-- A push_subscriptions table row (supabase_schema.sql lines 244 to 253):
primary key id, owner, endpoint and the two keys, with the table-level
constraint UNIQUE(user_id, endpoint). Endpoint and keys are opaque tokens
modelled as Nat. -/
structure PushSubscriptionRow where
  id : Nat
  user_id : Nat
  endpoint : Nat
  p256dh : Nat
  auth : Nat
deriving DecidableEq

/-- The upsert issued by setupPushSubscription
(NotificationContext.jsx lines 93 to 127): the client sends the row
without an id and without an onConflict option, so conflict resolution
defaults to the primary key id while the database generates a fresh id
for the incoming row. A fresh id never matches an existing primary key,
so the statement takes the plain insert path, and a row whose
(user_id, endpoint) pair already exists under a different id violates
UNIQUE(user_id, endpoint): the statement raises code 23505 and leaves the
table unchanged instead of updating the stored keys. -/
def pushSubscriptionUpsert (table : List PushSubscriptionRow)
    (freshId userId endpoint p256dh auth : Nat) :
    Except Nat (List PushSubscriptionRow) :=
  if table.any (fun r => r.id = freshId) then
    Except.ok (table.map (fun r =>
      if r.id = freshId then ⟨freshId, userId, endpoint, p256dh, auth⟩
      else r))
  else if table.any (fun r => r.user_id = userId ∧ r.endpoint = endpoint) then
    Except.error 23505
  else
    Except.ok (table ++ [⟨freshId, userId, endpoint, p256dh, auth⟩])

/-- setupPushSubscription catch behaviour: when the upsert raises, the
error is reported as a toast and the stored table is left as it was;
otherwise the new table stands. -/
def setupPushSubscription (table : List PushSubscriptionRow)
    (freshId userId endpoint p256dh auth : Nat) :
    List PushSubscriptionRow :=
  match pushSubscriptionUpsert table freshId userId endpoint p256dh auth with
  | Except.ok t => t
  | Except.error _ => table

/-- C6: registering the push subscription of user 1 at endpoint 10 twice,
first with keys (100, 101) and then with keys (200, 201), leaves exactly
one stored row for the pair, but that row holds the keys of the first
call: the second call hits the unique-constraint error instead of
updating, because the upsert resolves conflicts on the generated primary
key rather than on (user_id, endpoint). -/
theorem c6_push_upsert_duplicate_endpoint :
    setupPushSubscription [] 5 1 10 100 101 = [⟨5, 1, 10, 100, 101⟩]
  ∧ (pushSubscriptionUpsert [⟨5, 1, 10, 100, 101⟩] 6 1 10 200 201).toOption
      = none
  ∧ setupPushSubscription [⟨5, 1, 10, 100, 101⟩] 6 1 10 200 201
      = [⟨5, 1, 10, 100, 101⟩]
  ∧ ((setupPushSubscription [⟨5, 1, 10, 100, 101⟩] 6 1 10 200 201).filter
      (fun r => r.user_id = 1 ∧ r.endpoint = 10)).length = 1
  ∧ (∀ r ∈ setupPushSubscription [⟨5, 1, 10, 100, 101⟩] 6 1 10 200 201,
      r.p256dh = 100 ∧ r.auth = 101) := by
  decide

/-- Upper bound on accepted file sizes in handleFileUpload: 10 MiB. -/
def maxFileSizeBytes : Nat := 10 * 1024 * 1024

/-- The MIME allow-list of handleFileUpload (src/unnamed/part_002 line
60). -/
def allowedTypes : List String :=
  ["application/pdf", "application/msword",
   "application/vnd.openxmlformats-officedocument.wordprocessingml.document",
   "image/png", "image/jpeg", "image/jpg"]

/-- handleFileUpload validation (src/unnamed/part_002 lines 49 to 95):
returns whether a storage upload was performed together with the produced
user-facing error message, if any. Size and type are checked before any
upload call, so a rejected file causes no storage write. -/
def handleFileUpload (size : Nat) (mime : String) : Bool × Option String :=
  if maxFileSizeBytes < size then
    (false, some "File size must be less than 10MB")
  else if !(allowedTypes.contains mime) then
    (false, some "Only PDF, DOC, DOCX, PNG, and JPG files are allowed")
  else (true, none)

/-- One signatory entry of the create-document form. -/
structure SignatoryField where
  name : String
  position : String
  email : String
  phone : String
deriving DecidableEq

/-- The create-document form data (src/unnamed/part_002). -/
structure CreateDocumentForm where
  name : String
  description : String
  requires_admin_approval : Bool
  signatories : List SignatoryField
deriving DecidableEq

/-- Field validation of the create form, from the register rules in
src/unnamed/part_002: document name required with minimum length 3, every
signatory name required. A required rule rejects only the empty string,
so a whitespace-only name passes. The returned messages are the
user-facing field errors. -/
def formErrors (f : CreateDocumentForm) : List String :=
  (if f.name = "" then ["Document name is required"]
   else if f.name.length < 3 then ["Name must be at least 3 characters"]
   else [])
  ++ f.signatories.filterMap (fun s =>
      if s.name = "" then some "Name is required" else none)

/-- Whitespace characters removed by the JavaScript string trim method,
restricted to the common subset relevant here. -/
def isJsWhitespace (c : Char) : Bool :=
  c == ' ' || c == '\t' || c == '\n' || c == '\r'

/-- JavaScript trim on the character list of a string. -/
def jsTrim (s : String) : List Char :=
  ((s.data.dropWhile isJsWhitespace).reverse.dropWhile isJsWhitespace).reverse

/-- A persisted database write issued by the create-document submit
path. -/
inductive DbWrite where
  | documentRow (name : String) (createdBy : Nat) (requiresApproval : Bool)
  | signatoryRows (rows : List (String × Nat))
  | activityRow (action : String)
deriving DecidableEq

/-- onSubmit (src/unnamed/part_002 lines 130 to 198), success path of the
awaited inserts: the persisted writes issued and the error message
produced. Without an uploaded file nothing is written; otherwise the
document row is inserted first, then the signatory entries whose trimmed
name is nonempty, re-indexed in order, and when none remain the signatory
insert is skipped while the document and activity inserts still happen. -/
def onSubmit (uploadedFile : Option String) (userId : Nat)
    (f : CreateDocumentForm) : List DbWrite × Option String :=
  match uploadedFile with
  | none => ([], some "Please upload a document file")
  | some _ =>
    let sigRows := ((f.signatories.filter
        (fun s => !(jsTrim s.name).isEmpty)).enum).map
      (fun p => (p.2.name, p.1))
    ([DbWrite.documentRow f.name userId f.requires_admin_approval]
      ++ (if 0 < sigRows.length then [DbWrite.signatoryRows sigRows] else [])
      ++ [DbWrite.activityRow "created"], none)

/-- The submit pipeline: react-hook-form runs onSubmit only when the field
validation passes; otherwise the field error messages are shown and no
write is issued. The second component collects the user-facing
messages. -/
def submitCreateDocument (uploadedFile : Option String) (userId : Nat)
    (f : CreateDocumentForm) : List DbWrite × List String :=
  if formErrors f = [] then
    match onSubmit uploadedFile userId f with
    | (ws, none) => (ws, [])
    | (ws, some m) => (ws, [m])
  else ([], formErrors f)

/-- C8 counterexample: a request whose single signatory name is one space
passes the required checks, yet submission persists the document row (and
an activity row) with no signatory rows, so the request is not rejected
before a persisted write and the document is committed without its
signatories. -/
theorem c8_blank_signatory_counterexample :
    formErrors ⟨"Doc", "", false, [⟨" ", "", "", ""⟩]⟩ = []
  ∧ (submitCreateDocument (some "a.pdf") 1
      ⟨"Doc", "", false, [⟨" ", "", "", ""⟩]⟩).1
      = [DbWrite.documentRow "Doc" 1 false, DbWrite.activityRow "created"]
  ∧ (submitCreateDocument (some "a.pdf") 1
      ⟨"Doc", "", false, [⟨" ", "", "", ""⟩]⟩).1 ≠ [] := by
  decide

/-- C8 (amended): requests with a missing required field are rejected with
the specific field messages before any write; an oversized or disallowed
file is rejected with its specific message before any storage write; a
missing uploaded file is rejected with its specific message before any
database write; but a signatory list whose names are all whitespace-only
is not rejected: the document and activity rows are committed with no
signatory rows. -/
theorem c8_validation_amended :
    (∀ (uploadedFile : Option String) (userId : Nat)
      (f : CreateDocumentForm), formErrors f ≠ [] →
      submitCreateDocument uploadedFile userId f = ([], formErrors f))
  ∧ (∀ (size : Nat) (mime : String), maxFileSizeBytes < size →
      handleFileUpload size mime
        = (false, some "File size must be less than 10MB"))
  ∧ (∀ (size : Nat) (mime : String), size ≤ maxFileSizeBytes →
      allowedTypes.contains mime = false →
      handleFileUpload size mime
        = (false, some "Only PDF, DOC, DOCX, PNG, and JPG files are allowed"))
  ∧ (∀ (userId : Nat) (f : CreateDocumentForm), formErrors f = [] →
      submitCreateDocument none userId f
        = ([], ["Please upload a document file"]))
  ∧ (∀ (fu : String) (userId : Nat) (f : CreateDocumentForm),
      formErrors f = [] →
      (∀ s ∈ f.signatories, (jsTrim s.name).isEmpty = true) →
      (submitCreateDocument (some fu) userId f).1
        = [DbWrite.documentRow f.name userId f.requires_admin_approval,
           DbWrite.activityRow "created"]) := by
  refine ⟨?_, ?_, ?_, ?_, ?_⟩
  · intro uploadedFile userId f h
    rw [submitCreateDocument, if_neg h]
  · intro size mime h
    rw [handleFileUpload, if_pos h]
  · intro size mime hsize hmime
    rw [handleFileUpload, if_neg (by omega), if_pos (by rw [hmime]; rfl)]
  · intro userId f h
    rw [submitCreateDocument, if_pos h]
    rfl
  · intro fu userId f h hall
    rw [submitCreateDocument, if_pos h]
    have hfil : f.signatories.filter (fun s => !(jsTrim s.name).isEmpty)
        = [] := by
      rw [List.filter_eq_nil_iff]
      intro s hs
      simp [hall s hs]
    simp [onSubmit, hfil]

/-- C8 witness: the amended theorem applied at an oversized file and at a
concrete valid form whose only signatory name is whitespace. -/
theorem c8_validation_amended_witness :
    handleFileUpload (10 * 1024 * 1024 + 1) "application/pdf"
      = (false, some "File size must be less than 10MB")
  ∧ (submitCreateDocument (some "b.pdf") 2
      ⟨"Plan", "", true, [⟨"  ", "", "", ""⟩]⟩).1
      = [DbWrite.documentRow "Plan" 2 true, DbWrite.activityRow "created"] :=
  ⟨c8_validation_amended.2.1 (10 * 1024 * 1024 + 1) "application/pdf"
      (by decide),
   c8_validation_amended.2.2.2.2 "b.pdf" 2
      ⟨"Plan", "", true, [⟨"  ", "", "", ""⟩]⟩ (by decide) (by decide)⟩

end SignTracking
